import Mathlib

/-!
Shallow embedding of the `cursed` terminal-application framework, from the
two source files `cursed/app.py` (the `Result` outcome type and the
`CursedApp` controller) and `cursed/meta.py` (the `CursedWindowClass`
metaclass that registers window-configuration classes).

Modelling conventions:
* Python exception *types* are modelled by `PyType`: a numeric object
  identity (`id`), the class name (`name`), and the identities of the strict
  superclasses (`ancestors`).  Python's `is` on type objects is identity
  comparison, i.e. equality of `id` fields.
* Python exception *instances* are `PyExc` (type plus message); `str(exc)`
  is rendered as the message.  Tracebacks are opaque tokens (`Nat`).
* A gevent greenlet, as observed after `joinall`, is `Greenlet`: its
  `exception` attribute (`None` or the raised exception) and its traceback
  token; `exc_info` is the `(type, value, traceback)` triple.
* FIFO queues are lists; `Queue.put` appends at the tail.
* `six.reraise` inside `Result.unwrap` is modelled by returning the raised
  `(type, value, traceback)` triple, `none` meaning nothing is raised.
-/

/-- A Python class object (used for exception types): object identity,
class name, and identities of its strict superclasses. -/
structure PyType where
  id : Nat
  name : String
  ancestors : List Nat
deriving DecidableEq, Repr

/-- The built-in `KeyboardInterrupt` type object (object identity 0). -/
def KeyboardInterruptType : PyType :=
  { id := 0, name := "KeyboardInterrupt", ancestors := [] }

/-- The built-in `Exception` type object (object identity 1). -/
def ExceptionType : PyType :=
  { id := 1, name := "Exception", ancestors := [] }

/-- `issubclass(t, <type with identity i>)` (reflexive). -/
def PyType.subclassOf (t : PyType) (i : Nat) : Bool :=
  t.id == i || t.ancestors.contains i

/-- A Python exception instance: its type and its message. -/
structure PyExc where
  ty : PyType
  msg : String
deriving DecidableEq, Repr

/-- An exception is caught by `except KeyboardInterrupt` / `except Exception`
(the two handlers in `CursedApp.run`, whose bodies are identical). -/
def PyExc.catchable (e : PyExc) : Bool :=
  e.ty.subclassOf KeyboardInterruptType.id || e.ty.subclassOf ExceptionType.id

/-- A spawned gevent greenlet as observed after `gevent.joinall`:
its `exception` attribute and its captured traceback token. -/
structure Greenlet where
  exception : Option PyExc
  tb : Nat
deriving DecidableEq, Repr

/-- `thread.exc_info`: the `(type, value, traceback)` triple of a failed
greenlet, all `None` if the greenlet did not fail. -/
def Greenlet.exc_info (g : Greenlet) : Option PyType × Option PyExc × Option Nat :=
  match g.exception with
  | some e => (some e.ty, some e, some g.tb)
  | none => (none, none, none)

/-- `cursed.app.Result`: the object returned by `app.run()`, which may
contain exception information (`exc_type`, `exc`, `tb`). -/
structure Result where
  exc_type : Option PyType
  exc : Option PyExc
  tb : Option Nat
deriving DecidableEq, Repr

/-- `Result.__init__`: `self.exc_type, self.exc, self.tb = None, None, None`. -/
def Result.init : Result :=
  { exc_type := none, exc := none, tb := none }

/-- `Result._extract_exception` called from an `except` block handling `e`:
`self.exc_type, self.exc, self.tb = sys.exc_info()`. -/
def Result.extractException (_r : Result) (e : PyExc) (tb : Nat) : Result :=
  { exc_type := some e.ty, exc := some e, tb := some tb }

/-- `Result._extract_thread_exception`:
`self.exc_type, self.exc, self.tb = thread.exc_info`. -/
def Result.extractThreadException (_r : Result) (g : Greenlet) : Result :=
  { exc_type := g.exc_info.1, exc := g.exc_info.2.1, tb := g.exc_info.2.2 }

/-- `Result.unwrap`: `if self.exc: six.reraise(self.exc_type, self.exc, self.tb)`.
Returns the raised `(type, value, traceback)` triple, or `none` if nothing
is raised. -/
def Result.unwrap (r : Result) : Option (Option PyType × Option PyExc × Option Nat) :=
  if r.exc.isSome then some (r.exc_type, r.exc, r.tb) else none

/-- `Result.ok`: `return not bool(self.exc)` (exception instances are truthy). -/
def Result.ok (r : Result) : Bool :=
  !r.exc.isSome

/-- `Result.err`: `return self.exc if self.exc else None`. -/
def Result.err (r : Result) : Option PyExc :=
  if r.exc.isSome then r.exc else none

/-- `Result.interrupted`: `return self.exc_type is KeyboardInterrupt`
(`is` compares object identity of the type objects). -/
def Result.interrupted (r : Result) : Bool :=
  match r.exc_type with
  | some t => t.id == KeyboardInterruptType.id
  | none => false

/-- `Result.__repr__`. -/
def Result.reprStr (r : Result) : String :=
  match r.exc_type with
  | none => "Result(OKAY)"
  | some t =>
    if r.interrupted then "Result(KeyboardInterrupt)"
    else "Result(" ++ t.name ++ ", message=" ++
      (match r.exc with
       | some e => e.msg
       | none => "None") ++ ")"

/-! ## cursed/meta.py : the window-declaration registry -/

/-- A `WIDTH`/`HEIGHT` value: a fixed cell count, or the string sentinel
`'max'` meaning "fill remaining terminal extent". -/
inductive Dim
  | px (n : Int)
  | maxSentinel
deriving DecidableEq, Repr

/-- The class dictionary `dct` of a declared window-configuration type:
each field is `some v` when the declaration overrides the attribute,
`none` when it is absent (so `dct.get(KEY, default)` applies the default). -/
structure WindowDct where
  WIDTH : Option Dim
  HEIGHT : Option Dim
  X : Option Int
  Y : Option Int
  BORDERED : Option Bool
  SCROLL : Option Bool
  WAIT : Option Bool
  MENU : Option String
deriving DecidableEq, Repr

/-- A declaration with no attribute overrides (empty relevant `dct`). -/
def WindowDct.empty : WindowDct :=
  ⟨none, none, none, none, none, none, none, none⟩

/-- A registered window-configuration class after `CursedWindowClass.__new__`
has injected its attributes (`KEYMAP`/`OPENED_MENU` model the Python
attributes `_KEYMAP`/`_OPENED_MENU`; the three queues are FIFO lists). -/
structure CursedWindowRec where
  name : String
  WIDTH : Dim
  HEIGHT : Dim
  WINDOW : Option Nat
  APP : Option Nat
  X : Int
  Y : Int
  BORDERED : Bool
  EVENTS : List Int
  RESULTS : List Int
  KEY_EVENTS : List Int
  SCROLL : Bool
  WAIT : Bool
  MENU : Option String
  KEYMAP : List (Int × String)
  OPENED_MENU : Option String
deriving DecidableEq, Repr

/-- `BASE_CURSED_CLASSES = ('CursedWindowClass', 'CursedWindow', 'CursedMenu')`. -/
def BASE_CURSED_CLASSES : List String :=
  ["CursedWindowClass", "CursedWindow", "CursedMenu"]

/-- `CursedWindowClass.__new__`: given the declared class name, its `dct`,
and the current process-wide registry `WINDOWS`, returns the value of the
declared class (`none` for a reserved base name, which gets no injected
attributes) together with the updated registry. -/
def CursedWindowClass.new (name : String) (dct : WindowDct)
    (WINDOWS : List CursedWindowRec) :
    Option CursedWindowRec × List CursedWindowRec :=
  if name ∈ BASE_CURSED_CLASSES then
    (none, WINDOWS)
  else
    let newRec : CursedWindowRec :=
      { name := name
        WIDTH := dct.WIDTH.getD (Dim.px 80)
        HEIGHT := dct.HEIGHT.getD (Dim.px 24)
        WINDOW := none
        APP := none
        X := dct.X.getD 0
        Y := dct.Y.getD 0
        BORDERED := dct.BORDERED.getD false
        EVENTS := []
        RESULTS := []
        KEY_EVENTS := []
        SCROLL := dct.SCROLL.getD false
        WAIT := dct.WAIT.getD true
        MENU := dct.MENU
        KEYMAP := []
        OPENED_MENU := none }
    (some newRec, WINDOWS ++ [newRec])

/-- The record `CursedWindowClass.__new__` produces for a non-reserved name
declared with no overrides: all attributes at their injected defaults. -/
def defaultWindowRec (name : String) : CursedWindowRec :=
  { name := name, WIDTH := Dim.px 80, HEIGHT := Dim.px 24, WINDOW := none,
    APP := none, X := 0, Y := 0, BORDERED := false, EVENTS := [],
    RESULTS := [], KEY_EVENTS := [], SCROLL := false, WAIT := true,
    MENU := none, KEYMAP := [], OPENED_MENU := none }

/-! ## cursed/app.py : the input-dispatch loop `CursedApp._input_loop`

The loop reads the shared per-window runtime state: the window's spawned
greenlet (`cw.THREAD.exception`), the `RUNNING` and `WAIT` flags, and the
`KEY_EVENTS` queue.  Terminal input (`self.window.getch()` in nodelay mode)
is modelled by a list of pending key codes; reading from an empty list
yields the no-input sentinel `-1` without consuming anything.  Cooperative
interleaving at `gevent.sleep(0)` is not modelled: the flags and greenlet
states are those the loop observes. -/

/-- The per-window runtime state read and written by the input loop. -/
structure RtWindow where
  exception : Option PyExc
  RUNNING : Bool
  WAIT : Bool
  KEY_EVENTS : List Int
deriving DecidableEq, Repr

/-- The state threaded through `_input_loop`: `self.windows`,
`self.running`, and the pending terminal input. -/
structure LoopState where
  windows : List RtWindow
  running : Bool
  input : List Int
deriving DecidableEq, Repr

/-- Which branch of the scan over `self.windows` fires first:
a window whose greenlet failed, a window that is running and waiting,
or neither (the `for`-`else` clause). -/
inductive ScanResult
  | failure
  | proceed
  | nobody
deriving DecidableEq, Repr

/-- The `for cw in self.windows:` scan at the top of each loop iteration:
the first window with `cw.THREAD.exception is not None` triggers the
failure branch; otherwise the first window with `cw.RUNNING and cw.WAIT`
triggers the read; otherwise the `else:` clause fires. -/
def scanWindows : List RtWindow → ScanResult
  | [] => ScanResult.nobody
  | w :: ws =>
    if w.exception.isSome then ScanResult.failure
    else if w.RUNNING && w.WAIT then ScanResult.proceed
    else scanWindows ws

/-- The tail of a loop iteration after the scan broke out of the `for`:
`gevent.sleep(0)`, then `c = self.window.getch()`; `-1` means no input
(`continue`), otherwise `for cw in self.windows: cw.KEY_EVENTS.put(c)`. -/
def readAndBroadcast (s : LoopState) : LoopState :=
  match s.input with
  | [] => s
  | c :: rest =>
    if c = -1 then { s with input := rest }
    else
      { s with
          input := rest
          windows := s.windows.map fun w =>
            { w with KEY_EVENTS := w.KEY_EVENTS ++ [c] } }

/-- One full iteration of the `while self.running:` body of `_input_loop`.
In the failure branch the code sets `cw.RUNNING = False` for every window
and `self.running = False`, then `break`s out of the inner `for` only, so
the iteration still falls through to the `getch` and broadcast; in the
`for`-`else` branch it sets `self.running = False` and `break`s out of the
`while` without reading. -/
def inputLoopIter (s : LoopState) : LoopState :=
  match scanWindows s.windows with
  | ScanResult.nobody => { s with running := false }
  | ScanResult.failure =>
      readAndBroadcast
        { s with
            windows := s.windows.map fun w => { w with RUNNING := false }
            running := false }
  | ScanResult.proceed => readAndBroadcast s

/-- `_input_loop`, run for at most `fuel` iterations of the `while`. -/
def inputLoop : Nat → LoopState → LoopState
  | 0, s => s
  | fuel + 1, s => if s.running then inputLoop fuel (inputLoopIter s) else s

/-! ## cursed/app.py : `CursedApp.run`

`run()` is a straight-line `try:` block over calls into the external curses
and gevent libraries, two identical `except` handlers, and a `finally:`
cleanup guarded by `if self.scr is not None`.  The external world is
modelled by `RunWorld`: for each fallible external call, whether it
returns (and what) or raises; plus the post-join states of the greenlets
spawned for the registered windows and for the input loop. -/

/-- `CursedApp` instance state across calls (`__init__` plus the attributes
assigned inside `run`): `self.scr`, `self.window`, `self.threads`,
`self.running`.  Native curses handles are opaque tokens. -/
structure CursedApp where
  scr : Option Nat
  window : Option Nat
  threads : List Greenlet
  running : Bool
deriving DecidableEq, Repr

/-- `CursedApp.__init__`: `self.scr = None; self.threads = [];
self.running = True` (`self.window` is only assigned inside `run`). -/
def CursedApp.init : CursedApp :=
  { scr := none, window := none, threads := [], running := true }

/-- The behaviour of the external calls made by one `run()` invocation:
each fallible step either succeeds (with its return value, for the calls
whose result is used) or raises; `windowThreads` / `inputThread` are the
post-`joinall` states of the greenlets spawned by `_run_windows` and for
`_input_loop`. -/
structure RunWorld where
  initscr : Except (PyExc × Nat) Nat
  getmaxyx : Except (PyExc × Nat) (Nat × Nat)
  noecho : Option (PyExc × Nat)
  cbreak : Option (PyExc × Nat)
  start_color : Option (PyExc × Nat)
  use_default_colors : Option (PyExc × Nat)
  subwin : Except (PyExc × Nat) Nat
  keypad1 : Option (PyExc × Nat)
  nodelay1 : Option (PyExc × Nat)
  fix_windows : Option (PyExc × Nat)
  windowThreads : List Greenlet
  inputThread : Greenlet
  joinall : Option (PyExc × Nat)
deriving Repr

/-- The mutable state visible inside the `try:` block of `run`:
the local `result` plus the `self` attributes it assigns. -/
structure TryState where
  result : Result
  scr : Option Nat
  window : Option Nat
  threads : List Greenlet
deriving DecidableEq, Repr

/-- A computation inside the `try:` block: it returns a value or raises,
and in either case leaves the state reached so far (Python exceptions do
not roll back assignments already executed). -/
def TryM (α : Type) : Type :=
  TryState → Except (PyExc × Nat) α × TryState

/-- Sequencing with Python exception semantics: a raise in the first
computation skips the continuation but keeps the state. -/
def tbind {α β : Type} (x : TryM α) (f : α → TryM β) : TryM β := fun s =>
  match x s with
  | (Except.ok a, s1) => f a s1
  | (Except.error etb, s1) => (Except.error etb, s1)

/-- An external call that returns a value or raises, leaving state alone. -/
def callE {α : Type} (r : Except (PyExc × Nat) α) : TryM α := fun s =>
  (r, s)

/-- An external call used only for its effect: raises iff `o` is `some`. -/
def raiseIf (o : Option (PyExc × Nat)) : TryM Unit := fun s =>
  match o with
  | some etb => (Except.error etb, s)
  | none => (Except.ok (), s)

/-- An assignment to `self` or to the local `result`. -/
def modifyS (f : TryState → TryState) : TryM Unit := fun s =>
  (Except.ok (), f s)

/-- The post-join inspection at the end of the `try:` block:
`for thread in self.threads: if thread.exception:
result._extract_thread_exception(thread)`. -/
def extractThreads (r : Result) (ts : List Greenlet) : Result :=
  ts.foldl
    (fun acc t => if t.exception.isSome then acc.extractThreadException t else acc)
    r

/-- The steps of `run()`'s `try:` block after `self.scr = curses.initscr()`
has assigned the screen handle. -/
def runAfterScr (w : RunWorld) : TryM Unit :=
  tbind (callE w.getmaxyx) fun _maxyx =>
  tbind (raiseIf w.noecho) fun _ =>
  tbind (raiseIf w.cbreak) fun _ =>
  tbind (raiseIf w.start_color) fun _ =>
  tbind (raiseIf w.use_default_colors) fun _ =>
  tbind (callE w.subwin) fun winH =>
  tbind (modifyS fun s => { s with window := some winH }) fun _ =>
  tbind (raiseIf w.keypad1) fun _ =>
  tbind (raiseIf w.nodelay1) fun _ =>
  tbind (raiseIf w.fix_windows) fun _ =>
  tbind (modifyS fun s => { s with threads := s.threads ++ w.windowThreads }) fun _ =>
  tbind (modifyS fun s => { s with threads := s.threads ++ [w.inputThread] }) fun _ =>
  tbind (raiseIf w.joinall) fun _ =>
  modifyS fun s => { s with result := extractThreads s.result s.threads }

/-- The whole `try:` block of `run()`: `self.scr = curses.initscr()`,
then the remaining steps. -/
def runTryBlock (w : RunWorld) : TryM Unit :=
  tbind (callE w.initscr) fun scrH =>
  tbind (modifyS fun s => { s with scr := some scrH }) fun _ =>
  runAfterScr w

/-- The observable actions of the `finally:` cleanup. -/
inductive Eff
  | keypad0
  | echo
  | nocbreak
  | endwin
deriving DecidableEq, Repr

/-- `CursedApp.run`.  Returns the `Result` (`none` when an uncatchable
exception escapes the two handlers), the controller state after the call,
and the list of cleanup actions performed by the `finally:` block, which
the source guards with `if self.scr is not None:`. -/
def CursedApp.run (app : CursedApp) (w : RunWorld) :
    Option Result × CursedApp × List Eff :=
  let s0 : TryState :=
    { result := Result.init, scr := app.scr, window := app.window,
      threads := app.threads }
  let out := runTryBlock w s0
  let s := out.2
  let retVal : Option Result :=
    match out.1 with
    | Except.ok _ => some s.result
    | Except.error (e, tb) =>
      if e.catchable then some (s.result.extractException e tb) else none
  let cleanup : List Eff :=
    if s.scr.isSome then [Eff.keypad0, Eff.echo, Eff.nocbreak, Eff.endwin]
    else []
  (retVal,
   { scr := s.scr, window := s.window, threads := s.threads,
     running := app.running },
   cleanup)

/-- The failed greenlets among `ts`, in order; the last of them is the one
whose `exc_info` survives the post-join inspection. -/
def lastFailing (ts : List Greenlet) : Option Greenlet :=
  (ts.filter fun t => t.exception.isSome).getLast?

/-! ## Concrete sample data used by witnesses and counterexamples -/

/-- A sample application error raised inside a window task. -/
def rtError : PyExc :=
  { ty := { id := 3, name := "RuntimeError", ancestors := [1] },
    msg := "window task failed" }

/-- A sample curses library error. -/
def cursesError : PyExc :=
  { ty := { id := 4, name := "error", ancestors := [1] },
    msg := "setupterm failed" }

/-- A loop state whose single window has a failed greenlet, with one
pending key code 65 at the terminal. -/
def c1State : LoopState :=
  { windows := [{ exception := some rtError, RUNNING := true, WAIT := true,
                  KEY_EVENTS := [] }],
    running := true, input := [65] }

/-- A proper subclass of `KeyboardInterrupt` (its own identity, with the
`KeyboardInterrupt` identity among its ancestors). -/
def kiSubType : PyType :=
  { id := 2, name := "MyInterrupt", ancestors := [KeyboardInterruptType.id] }

/-- A greenlet that failed with `rtError`. -/
def gFail1 : Greenlet := { exception := some rtError, tb := 21 }

/-- A second sample application error, distinct from `rtError`. -/
def keyError : PyExc :=
  { ty := { id := 5, name := "KeyError", ancestors := [1] }, msg := "missing" }

/-- A second failed greenlet, with a distinct exception. -/
def gFail2 : Greenlet := { exception := some keyError, tb := 22 }

/-- A greenlet that finished without an exception. -/
def gOk : Greenlet := { exception := none, tb := 0 }

/-- An external world in which every call of `run()` succeeds and every
spawned greenlet finishes cleanly. -/
def allOkWorld : RunWorld :=
  { initscr := Except.ok 1, getmaxyx := Except.ok (24, 80), noecho := none,
    cbreak := none, start_color := none, use_default_colors := none,
    subwin := Except.ok 2, keypad1 := none, nodelay1 := none,
    fix_windows := none, windowThreads := [], inputThread := gOk,
    joinall := none }

/-- A world in which terminal acquisition (`curses.initscr()`) itself raises. -/
def c2FailWorld : RunWorld :=
  { allOkWorld with initscr := Except.error (cursesError, 11) }

/-- A world in which `initscr` succeeds but a later setup step
(`curses.cbreak()`) raises. -/
def c2LateFailWorld : RunWorld :=
  { allOkWorld with cbreak := some (cursesError, 12) }

/-- A world with two failed window greenlets (and one clean one between
them), to exhibit the last-failure-wins inspection. -/
def c3World : RunWorld :=
  { allOkWorld with windowThreads := [gFail1, gOk, gFail2] }

/-- A first-run world whose single window greenlet fails. -/
def c10FirstWorld : RunWorld :=
  { allOkWorld with windowThreads := [gFail1] }

/-- The controller state left behind by a first `run()` in `c10FirstWorld`. -/
def c10App : CursedApp := (CursedApp.run CursedApp.init c10FirstWorld).2.1

/-- A second-run world whose every spawned greenlet succeeds. -/
def c10SecondWorld : RunWorld :=
  { allOkWorld with windowThreads := [gOk] }

/-! ## Helper lemmas about the input-dispatch loop -/

/-- Once `self.running` is false, `_input_loop` performs no further
iterations. -/
theorem inputLoop_halted (s : LoopState) (h : s.running = false) :
    ∀ k, inputLoop k s = s := by
  intro k
  cases k with
  | zero => rfl
  | succ k => simp [inputLoop, h]

/-- Relational composition for `List.Forall₂`. -/
theorem forall₂_comp {α β γ : Type} {R1 : α → β → Prop} {R2 : β → γ → Prop}
    {R3 : α → γ → Prop} (h : ∀ a b c, R1 a b → R2 b c → R3 a c) :
    ∀ {l1 : List α} {l2 : List β} {l3 : List γ},
      List.Forall₂ R1 l1 l2 → List.Forall₂ R2 l2 l3 → List.Forall₂ R3 l1 l3 := by
  intro l1 l2 l3 h12 h23
  induction h12 generalizing l3 with
  | nil =>
    cases h23
    exact List.Forall₂.nil
  | cons hab _ ih =>
    cases h23 with
    | cons hbc h23 => exact List.Forall₂.cons (h _ _ _ hab hbc) (ih h23)

/-- Every window's key queue is unchanged: the trivially extended-by-`[]`
relation holds between a window list and itself. -/
theorem forall₂_queues_nil (l : List RtWindow) :
    List.Forall₂ (fun w w2 => w2.KEY_EVENTS = w.KEY_EVENTS ++ ([] : List Int))
      l l := by
  refine List.forall₂_same.mpr ?_
  intro w _
  simp

/-- A window list is related to its image under a map that leaves
`KEY_EVENTS` untouched. -/
theorem forall₂_queues_map (l : List RtWindow) (f : RtWindow → RtWindow)
    (hf : ∀ w, (f w).KEY_EVENTS = w.KEY_EVENTS) :
    List.Forall₂ (fun w w2 => w2.KEY_EVENTS = w.KEY_EVENTS) l (l.map f) := by
  refine List.forall₂_map_right_iff.mpr ?_
  exact List.forall₂_same.mpr fun w _ => hf w

/-- The `readAndBroadcast` tail of an iteration consumes at most one key
code and appends exactly the non-`-1` part of it to every window's queue. -/
theorem readAndBroadcast_reads (s : LoopState) :
    ∃ cr : List Int,
      s.input = cr ++ (readAndBroadcast s).input ∧
      List.Forall₂
        (fun w w2 => w2.KEY_EVENTS = w.KEY_EVENTS ++ cr.filter (fun c => c != -1))
        s.windows (readAndBroadcast s).windows := by
  rcases hi : s.input with _ | ⟨c, rest⟩
  · have heq : readAndBroadcast s = s := by
      simp [readAndBroadcast, hi]
    rw [heq]
    exact ⟨[], by rw [hi]; rfl, forall₂_queues_nil s.windows⟩
  · by_cases hc : c = -1
    · have heq : readAndBroadcast s = { s with input := rest } := by
        simp [readAndBroadcast, hi, hc]
      rw [heq]
      refine ⟨[c], rfl, ?_⟩
      simp only [hc]
      simp
    · have heq : readAndBroadcast s =
          { s with
              input := rest
              windows := s.windows.map fun w =>
                { w with KEY_EVENTS := w.KEY_EVENTS ++ [c] } } := by
        simp [readAndBroadcast, hi, hc]
      rw [heq]
      refine ⟨[c], rfl, ?_⟩
      refine List.forall₂_map_right_iff.mpr ?_
      refine List.forall₂_same.mpr ?_
      intro w _
      simp [hc]

/-- One iteration of `_input_loop` consumes at most one key code and
appends exactly its non-`-1` part to every window's queue, whichever
branch of the scan fires. -/
theorem inputLoopIter_reads (s : LoopState) :
    ∃ cr : List Int,
      s.input = cr ++ (inputLoopIter s).input ∧
      List.Forall₂
        (fun w w2 => w2.KEY_EVENTS = w.KEY_EVENTS ++ cr.filter (fun c => c != -1))
        s.windows (inputLoopIter s).windows := by
  rcases hscan : scanWindows s.windows
  case failure =>
    have heq : inputLoopIter s = readAndBroadcast
        { s with
            windows := s.windows.map fun w => { w with RUNNING := false }
            running := false } := by
      simp [inputLoopIter, hscan]
    rcases readAndBroadcast_reads
        { s with
            windows := s.windows.map fun w => { w with RUNNING := false }
            running := false } with ⟨cr, hin, hq⟩
    rw [heq]
    refine ⟨cr, hin, ?_⟩
    have hstop : List.Forall₂ (fun w w2 => w2.KEY_EVENTS = w.KEY_EVENTS)
        s.windows (s.windows.map fun w => { w with RUNNING := false }) :=
      forall₂_queues_map s.windows _ fun _ => rfl
    refine forall₂_comp ?_ hstop hq
    intro a b c h1 h2
    rw [h2, h1]
  case proceed =>
    have heq : inputLoopIter s = readAndBroadcast s := by
      simp [inputLoopIter, hscan]
    rw [heq]
    exact readAndBroadcast_reads s
  case nobody =>
    have heq : inputLoopIter s = { s with running := false } := by
      simp [inputLoopIter, hscan]
    rw [heq]
    exact ⟨[], rfl, forall₂_queues_nil s.windows⟩

/-! ## Claim C5 -/

/-- C5: every character the input-dispatch loop reads from the terminal
other than the -1 no-input sentinel is put exactly once into the
key-events queue of every window in the controller's window list; over any
number of consecutive iterations there is a single consumed input segment
`cr` (the characters read, in read order) whose non-`-1` part is appended,
in order, to every window's queue — the same sequence for all windows —
and the `-1` sentinel is never broadcast. -/
theorem c5_broadcast_order (k : Nat) (s : LoopState) :
    ∃ cr : List Int,
      s.input = cr ++ (inputLoop k s).input ∧
      List.Forall₂
        (fun w w2 => w2.KEY_EVENTS = w.KEY_EVENTS ++ cr.filter (fun c => c != -1))
        s.windows (inputLoop k s).windows := by
  induction k generalizing s with
  | zero => exact ⟨[], rfl, forall₂_queues_nil s.windows⟩
  | succ k ih =>
    cases hr : s.running
    case false =>
      have heq : inputLoop (k + 1) s = s := by
        simp [inputLoop, hr]
      rw [heq]
      exact ⟨[], rfl, forall₂_queues_nil s.windows⟩
    case true =>
      have heq : inputLoop (k + 1) s = inputLoop k (inputLoopIter s) := by
        simp [inputLoop, hr]
      rw [heq]
      rcases inputLoopIter_reads s with ⟨cr1, h1, h2⟩
      rcases ih (inputLoopIter s) with ⟨cr2, h3, h4⟩
      refine ⟨cr1 ++ cr2, ?_, ?_⟩
      · rw [h1, h3, List.append_assoc]
      · refine forall₂_comp ?_ h2 h4
        intro a b c hab hbc
        rw [hbc, hab, List.filter_append, List.append_assoc]

/-! ## Claim C1 -/

/-- C1 counterexample: in a concrete state with the controller's running
flag true and the scan finding a window whose task recorded a failure, the
iteration nevertheless reads the pending character from the terminal and
broadcasts it to the window's key-events queue — refuting "stops in that
same iteration without reading a character and without broadcasting". -/
theorem c1_counterexample :
    c1State.running = true ∧
    scanWindows c1State.windows = ScanResult.failure ∧
    ¬((inputLoopIter c1State).input = c1State.input ∧
      (inputLoopIter c1State).windows.map RtWindow.KEY_EVENTS =
        c1State.windows.map RtWindow.KEY_EVENTS) := by
  decide

/-- C1 (amended): on an iteration with the controller's running flag true
in which the scan finds a window whose task handle records a failure, the
loop sets every window's running flag to false, sets the controller's
running flag to false, and performs no further iterations after this one;
however, in that same iteration it still reads one character from the
terminal (consuming the head of the pending input) and, when that
character is not the -1 sentinel, broadcasts it exactly once to every
window's key-events queue. -/
theorem c1_failure_stops_after_one_read (s : LoopState)
    (_hrun : s.running = true)
    (hscan : scanWindows s.windows = ScanResult.failure) :
    (∀ w ∈ (inputLoopIter s).windows, w.RUNNING = false) ∧
    (inputLoopIter s).running = false ∧
    (∀ k, inputLoop k (inputLoopIter s) = inputLoopIter s) ∧
    (inputLoopIter s).input = s.input.tail ∧
    List.Forall₂
      (fun w w2 => w2.KEY_EVENTS =
        w.KEY_EVENTS ++ (s.input.take 1).filter (fun c => c != -1))
      s.windows (inputLoopIter s).windows := by
  have heq : inputLoopIter s = readAndBroadcast
      { s with
          windows := s.windows.map fun w => { w with RUNNING := false }
          running := false } := by
    simp [inputLoopIter, hscan]
  rcases hi : s.input with _ | ⟨c, rest⟩
  · have heq2 : inputLoopIter s =
        { s with
            windows := s.windows.map fun w => { w with RUNNING := false }
            running := false } := by
      rw [heq]; simp [readAndBroadcast, hi]
    rw [heq2]
    refine ⟨?_, rfl, inputLoop_halted _ rfl, by simp [hi], ?_⟩
    · intro w hw
      rcases List.mem_map.mp hw with ⟨w0, _, hw0⟩
      rw [← hw0]
    · refine List.forall₂_map_right_iff.mpr ?_
      refine List.forall₂_same.mpr ?_
      intro w _
      simp
  · by_cases hc : c = -1
    · have heq2 : inputLoopIter s =
          { s with
              windows := s.windows.map fun w => { w with RUNNING := false }
              running := false
              input := rest } := by
        rw [heq]; simp [readAndBroadcast, hi, hc]
      rw [heq2]
      refine ⟨?_, rfl, inputLoop_halted _ rfl, by simp [hi], ?_⟩
      · intro w hw
        rcases List.mem_map.mp hw with ⟨w0, _, hw0⟩
        rw [← hw0]
      · refine List.forall₂_map_right_iff.mpr ?_
        refine List.forall₂_same.mpr ?_
        intro w _
        simp [hc]
    · have heq2 : inputLoopIter s =
          { s with
              windows := (s.windows.map fun w => { w with RUNNING := false }).map
                fun w => { w with KEY_EVENTS := w.KEY_EVENTS ++ [c] }
              running := false
              input := rest } := by
        rw [heq]; simp [readAndBroadcast, hi, hc]
      rw [heq2]
      refine ⟨?_, rfl, inputLoop_halted _ rfl, by simp [hi], ?_⟩
      · intro w hw
        simp only [List.mem_map] at hw
        rcases hw with ⟨w1, ⟨w0, _, hw0⟩, hw1⟩
        rw [← hw1, ← hw0]
      · refine List.forall₂_map_right_iff.mpr ?_
        refine List.forall₂_map_right_iff.mpr ?_
        refine List.forall₂_same.mpr ?_
        intro w _
        simp [hc]

/-- C1 witness: the amended theorem applied to the concrete failing state. -/
theorem c1_failure_stops_after_one_read_witness :
    c1State.running = true ∧
    scanWindows c1State.windows = ScanResult.failure ∧
    (inputLoopIter c1State).running = false ∧
    inputLoop 5 (inputLoopIter c1State) = inputLoopIter c1State ∧
    (inputLoopIter c1State).input = c1State.input.tail :=
  ⟨by decide, by decide,
   (c1_failure_stops_after_one_read c1State (by decide) (by decide)).2.1,
   (c1_failure_stops_after_one_read c1State (by decide) (by decide)).2.2.1 5,
   (c1_failure_stops_after_one_read c1State (by decide) (by decide)).2.2.2.1⟩

/-! ## Claim C4 -/

/-- C4: declaring a window-configuration type whose name is not one of the
three reserved base names, with no attribute overrides, sets width=80,
height=24, x=0, y=0, bordered=false, scroll=false, wait=true, menu=none,
three fresh empty FIFO queues, absent native handle and application
reference, an empty key-binding map and an absent open-menu reference, and
appends the configuration exactly once at the end of the process-wide
registry; a second such declaration lands after it, so successive
declarations appear in declaration order. -/
theorem c4_defaults_and_declaration_order (n1 n2 : String)
    (ws : List CursedWindowRec)
    (h1 : n1 ∉ BASE_CURSED_CLASSES) (h2 : n2 ∉ BASE_CURSED_CLASSES) :
    CursedWindowClass.new n1 WindowDct.empty ws =
      (some (defaultWindowRec n1), ws ++ [defaultWindowRec n1]) ∧
    (defaultWindowRec n1).WIDTH = Dim.px 80 ∧
    (defaultWindowRec n1).HEIGHT = Dim.px 24 ∧
    (defaultWindowRec n1).X = 0 ∧ (defaultWindowRec n1).Y = 0 ∧
    (defaultWindowRec n1).BORDERED = false ∧
    (defaultWindowRec n1).SCROLL = false ∧
    (defaultWindowRec n1).WAIT = true ∧
    (defaultWindowRec n1).MENU = none ∧
    (defaultWindowRec n1).EVENTS = [] ∧
    (defaultWindowRec n1).RESULTS = [] ∧
    (defaultWindowRec n1).KEY_EVENTS = [] ∧
    (defaultWindowRec n1).WINDOW = none ∧
    (defaultWindowRec n1).APP = none ∧
    (defaultWindowRec n1).KEYMAP = [] ∧
    (defaultWindowRec n1).OPENED_MENU = none ∧
    CursedWindowClass.new n2 WindowDct.empty (ws ++ [defaultWindowRec n1]) =
      (some (defaultWindowRec n2),
       ws ++ [defaultWindowRec n1, defaultWindowRec n2]) := by
  refine ⟨?_, rfl, rfl, rfl, rfl, rfl, rfl, rfl, rfl, rfl, rfl, rfl, rfl,
    rfl, rfl, rfl, ?_⟩
  · simp [CursedWindowClass.new, h1, WindowDct.empty, defaultWindowRec]
  · simp [CursedWindowClass.new, h2, WindowDct.empty, defaultWindowRec]

/-- C4 witness: two concrete non-reserved declarations on the empty
registry. -/
theorem c4_defaults_and_declaration_order_witness :
    ("MainWindow" ∉ BASE_CURSED_CLASSES) ∧
    ("SideWindow" ∉ BASE_CURSED_CLASSES) ∧
    (CursedWindowClass.new "MainWindow" WindowDct.empty [] =
       (some (defaultWindowRec "MainWindow"), [defaultWindowRec "MainWindow"]) ∧
     CursedWindowClass.new "SideWindow" WindowDct.empty
         [defaultWindowRec "MainWindow"] =
       (some (defaultWindowRec "SideWindow"),
        [defaultWindowRec "MainWindow", defaultWindowRec "SideWindow"])) :=
  ⟨by decide, by decide,
   (c4_defaults_and_declaration_order "MainWindow" "SideWindow" []
      (by decide) (by decide)).1,
   (c4_defaults_and_declaration_order "MainWindow" "SideWindow" []
      (by decide) (by decide)).2.2.2.2.2.2.2.2.2.2.2.2.2.2.2.2⟩

/-! ## Claim C8 -/

/-- C8: declaring a type whose name is one of the three reserved base
names leaves the process-wide registry unchanged (nothing is appended) and
injects none of the default attributes or queues into that type (no
registered record is produced for it). -/
theorem c8_base_names_not_registered (name : String) (dct : WindowDct)
    (ws : List CursedWindowRec) (h : name ∈ BASE_CURSED_CLASSES) :
    CursedWindowClass.new name dct ws = (none, ws) := by
  simp [CursedWindowClass.new, h]

/-- C8 witness: declaring the reserved name CursedWindow on a nonempty
registry. -/
theorem c8_base_names_not_registered_witness :
    ("CursedWindow" ∈ BASE_CURSED_CLASSES) ∧
    CursedWindowClass.new "CursedWindow" WindowDct.empty
        [defaultWindowRec "MainWindow"] =
      (none, [defaultWindowRec "MainWindow"]) :=
  ⟨by decide,
   c8_base_names_not_registered "CursedWindow" WindowDct.empty
     [defaultWindowRec "MainWindow"] (by decide)⟩

/-! ## Claim C6 -/

/-- C6: for every Outcome into which an exception of kind K with message M
has been captured — whether from an `except` block or copied from a failed
thread handle — `err()` returns that exception (matching K and M), `ok()`
returns false, and `unwrap()` raises an exception matching K and M with
the original traceback; for an Outcome with nothing captured, `unwrap()`
raises nothing. -/
theorem c6_capture_err_ok_unwrap (e : PyExc) (tb : Nat) :
    ((Result.init.extractException e tb).err = some e ∧
     (Result.init.extractException e tb).ok = false ∧
     (Result.init.extractException e tb).unwrap =
       some (some e.ty, some e, some tb)) ∧
    ((Result.init.extractThreadException { exception := some e, tb := tb }).err =
       some e ∧
     (Result.init.extractThreadException { exception := some e, tb := tb }).ok =
       false ∧
     (Result.init.extractThreadException { exception := some e, tb := tb }).unwrap =
       some (some e.ty, some e, some tb)) ∧
    Result.init.unwrap = none := by
  refine ⟨⟨rfl, rfl, rfl⟩, ⟨?_, ?_, ?_⟩, rfl⟩ <;>
    simp [Result.extractThreadException, Greenlet.exc_info, Result.err,
      Result.ok, Result.unwrap]

/-! ## Claim C7 -/

/-- C7: for every Outcome into which a keyboard interrupt has been
captured, `interrupted()` returns true and the textual rendering is
exactly "Result(KeyboardInterrupt)"; for a freshly constructed Outcome,
`interrupted()` returns false and the rendering is exactly "Result(OKAY)". -/
theorem c7_interrupted_and_repr (m : String) (tb : Nat) :
    ((Result.init.extractException { ty := KeyboardInterruptType, msg := m }
        tb).interrupted = true ∧
     (Result.init.extractException { ty := KeyboardInterruptType, msg := m }
        tb).reprStr = "Result(KeyboardInterrupt)") ∧
    (Result.init.interrupted = false ∧
     Result.init.reprStr = "Result(OKAY)") := by
  refine ⟨⟨rfl, ?_⟩, rfl, rfl⟩
  simp [Result.extractException, Result.reprStr, Result.interrupted,
    KeyboardInterruptType]

/-! ## Claim C9 -/

/-- C9: `interrupted()` compares the captured exception type by exact
identity with the keyboard-interrupt type: for a captured exception whose
type is a proper subclass of KeyboardInterrupt (distinct identity, with
KeyboardInterrupt among its ancestors), `interrupted()` returns false and
the rendering is the generic "Result(kind, message=msg)" form, even though
`ok()` returns false for that same Outcome. -/
theorem c9_subclass_not_interrupted (t : PyType) (m : String) (tb : Nat)
    (_hanc : t.ancestors.contains KeyboardInterruptType.id = true)
    (hne : t.id ≠ KeyboardInterruptType.id) :
    (Result.init.extractException { ty := t, msg := m } tb).interrupted =
      false ∧
    (Result.init.extractException { ty := t, msg := m } tb).reprStr =
      "Result(" ++ t.name ++ ", message=" ++ m ++ ")" ∧
    (Result.init.extractException { ty := t, msg := m } tb).ok = false := by
  have hintr : (Result.init.extractException { ty := t, msg := m } tb).interrupted =
      false := by
    simp [Result.extractException, Result.interrupted, hne]
  refine ⟨hintr, ?_, rfl⟩
  simp [Result.extractException, Result.reprStr] at hintr ⊢
  simp [Result.interrupted] at hintr
  simp [Result.interrupted, hintr]

/-- C9 witness: a concrete proper subclass of KeyboardInterrupt. -/
theorem c9_subclass_not_interrupted_witness :
    (kiSubType.ancestors.contains KeyboardInterruptType.id = true) ∧
    (kiSubType.id ≠ KeyboardInterruptType.id) ∧
    ((Result.init.extractException { ty := kiSubType, msg := "stop" } 7).interrupted =
       false ∧
     (Result.init.extractException { ty := kiSubType, msg := "stop" } 7).reprStr =
       "Result(" ++ kiSubType.name ++ ", message=" ++ "stop" ++ ")" ∧
     (Result.init.extractException { ty := kiSubType, msg := "stop" } 7).ok =
       false) :=
  ⟨by decide, by decide,
   c9_subclass_not_interrupted kiSubType "stop" 7 (by decide) (by decide)⟩

/-! ## Helper lemmas about `CursedApp.run` -/

/-- The steps after the screen assignment never change `self.scr`,
whichever of them raises. -/
theorem runAfterScr_scr (w : RunWorld) (s : TryState) :
    ((runAfterScr w) s).2.scr = s.scr := by
  rcases w with ⟨i, g, ne, cb, sc, ud, sw, kp, nd, fx, wt, it, jo⟩
  rcases g with _ | _ <;> rcases ne with _ | _ <;> rcases cb with _ | _ <;>
    rcases sc with _ | _ <;> rcases ud with _ | _ <;> rcases sw with _ | _ <;>
    rcases kp with _ | _ <;> rcases nd with _ | _ <;> rcases fx with _ | _ <;>
    rcases jo with _ | _ <;> rfl

/-- If no thread in `ts` failed, the post-join inspection leaves the
result untouched. -/
theorem extractThreads_nofail (r : Result) (ts : List Greenlet)
    (h : ∀ g ∈ ts, g.exception.isSome = false) :
    extractThreads r ts = r := by
  induction ts generalizing r with
  | nil => rfl
  | cons t ts ih =>
    have ht : t.exception.isSome = false := h t (by simp)
    have hstep : extractThreads r (t :: ts) = extractThreads r ts := by
      simp [extractThreads, ht]
    rw [hstep]
    exact ih r fun g hg => h g (by simp [hg])

/-- The post-join inspection copies exactly the last failed handle's
`exc_info` into the result (overwriting whatever was inspected earlier). -/
theorem extractThreads_lastFailing (r : Result) (ts : List Greenlet)
    (g : Greenlet) (h : lastFailing ts = some g) :
    extractThreads r ts = r.extractThreadException g := by
  induction ts generalizing r with
  | nil => simp [lastFailing] at h
  | cons t ts ih =>
    by_cases hfail : t.exception.isSome
    · have hfc : (t :: ts).filter (fun x => x.exception.isSome) =
          t :: ts.filter (fun x => x.exception.isSome) := by
        simp [hfail]
      have hstep : extractThreads r (t :: ts) =
          extractThreads (r.extractThreadException t) ts := by
        simp [extractThreads, hfail]
      by_cases hrest : ts.filter (fun x => x.exception.isSome) = []
      · have hg : t = g := by
          unfold lastFailing at h
          rw [hfc, hrest] at h
          simpa using h
        subst hg
        rw [hstep]
        exact extractThreads_nofail _ ts fun x hx => by
          have := List.filter_eq_nil_iff.mp hrest x hx
          simpa using this
      · rcases List.exists_cons_of_ne_nil hrest with ⟨x, xs, hxs⟩
        have h2 : lastFailing ts = some g := by
          unfold lastFailing at h ⊢
          rw [hfc, hxs, List.getLast?_cons_cons] at h
          rw [hxs]
          exact h
        rw [hstep, ih _ h2]
        rfl
    · have hstep : extractThreads r (t :: ts) = extractThreads r ts := by
        simp [extractThreads, hfail]
      have h2 : lastFailing ts = some g := by
        unfold lastFailing at h ⊢
        have hfc : (t :: ts).filter (fun x => x.exception.isSome) =
            ts.filter (fun x => x.exception.isSome) := by
          simp [hfail]
        rwa [hfc] at h
      rw [hstep]
      exact ih r h2

/-- Appending only clean greenlets does not change which handle's failure
survives the inspection. -/
theorem lastFailing_append_nofail (ts ts2 : List Greenlet)
    (h : ∀ x ∈ ts2, x.exception = none) :
    lastFailing (ts ++ ts2) = lastFailing ts := by
  unfold lastFailing
  have hnil : ts2.filter (fun x => x.exception.isSome) = [] := by
    refine List.filter_eq_nil_iff.mpr ?_
    intro x hx
    simp [h x hx]
  rw [List.filter_append, hnil, List.append_nil]

/-- Under a world in which every external call of `run()` succeeds, the
`try:` block completes, assigns the screen and sub-window handles, appends
the window greenlets and the input greenlet to `self.threads`, and runs
the post-join inspection over the accumulated thread list. -/
theorem runTryBlock_ok (w : RunWorld) (n sw : Nat) (p : Nat × Nat)
    (h1 : w.initscr = Except.ok n) (h2 : w.getmaxyx = Except.ok p)
    (h3 : w.noecho = none) (h4 : w.cbreak = none) (h5 : w.start_color = none)
    (h6 : w.use_default_colors = none) (h7 : w.subwin = Except.ok sw)
    (h8 : w.keypad1 = none) (h9 : w.nodelay1 = none)
    (h10 : w.fix_windows = none) (h11 : w.joinall = none) (s : TryState) :
    runTryBlock w s =
      (Except.ok (),
       { result := extractThreads s.result
           ((s.threads ++ w.windowThreads) ++ [w.inputThread]),
         scr := some n, window := some sw,
         threads := (s.threads ++ w.windowThreads) ++ [w.inputThread] }) := by
  simp [runTryBlock, runAfterScr, tbind, callE, raiseIf, modifyS,
    h1, h2, h3, h4, h5, h6, h7, h8, h9, h10, h11]

/-! ## Claim C2 -/

/-- C2 counterexample: on a fresh controller, when terminal acquisition
(`curses.initscr()`) itself raises, `self.scr` is still `None`, so the
guarded `finally:` block performs none of the cleanup actions — refuting
"regardless of whether any of steps 1-6 succeeds or raises (including a
failure of terminal acquisition itself), the cleanup ... is executed". -/
theorem c2_counterexample :
    CursedApp.init.scr = none ∧
    c2FailWorld.initscr = Except.error (cursesError, 11) ∧
    (CursedApp.run CursedApp.init c2FailWorld).2.2 = [] ∧
    (CursedApp.run CursedApp.init c2FailWorld).2.2 ≠
      [Eff.keypad0, Eff.echo, Eff.nocbreak, Eff.endwin] := by
  refine ⟨rfl, rfl, ?_, ?_⟩ <;> decide

/-- C2 (amended): for every call to run() in which terminal acquisition
succeeds (or the controller already holds a screen handle from an earlier
call), the cleanup that disables special-key decoding, re-enables echo,
leaves cbreak mode and tears down the terminal session executes before
run() returns, regardless of which later step raises; only when initscr
itself fails on a controller with no screen handle is the cleanup skipped. -/
theorem c2_cleanup_when_screen_acquired (app : CursedApp) (w : RunWorld)
    (h : (∃ n, w.initscr = Except.ok n) ∨ app.scr.isSome = true) :
    (CursedApp.run app w).2.2 =
      [Eff.keypad0, Eff.echo, Eff.nocbreak, Eff.endwin] := by
  rcases hi : w.initscr with ⟨e, tb⟩ | n
  · have hs : app.scr.isSome = true := by
      rcases h with ⟨n, hn⟩ | hs
      · rw [hi] at hn
        simp at hn
      · exact hs
    have hb : runTryBlock w
        { result := Result.init, scr := app.scr, window := app.window,
          threads := app.threads } =
        (Except.error (e, tb),
         { result := Result.init, scr := app.scr, window := app.window,
           threads := app.threads }) := by
      simp [runTryBlock, tbind, callE, hi]
    simp [CursedApp.run, hb, hs]
  · have hb : runTryBlock w
        { result := Result.init, scr := app.scr, window := app.window,
          threads := app.threads } =
        runAfterScr w
          { result := Result.init, scr := some n, window := app.window,
            threads := app.threads } := by
      simp [runTryBlock, tbind, callE, modifyS, hi]
    have hscr := runAfterScr_scr w
      { result := Result.init, scr := some n, window := app.window,
        threads := app.threads }
    simp [CursedApp.run, hb, hscr]

/-- C2 witness: a run in which `initscr` succeeds and a later setup call
(`curses.cbreak()`) raises still performs the full cleanup. -/
theorem c2_cleanup_when_screen_acquired_witness :
    (∃ n, c2LateFailWorld.initscr = Except.ok n) ∧
    (CursedApp.run CursedApp.init c2LateFailWorld).2.2 =
      [Eff.keypad0, Eff.echo, Eff.nocbreak, Eff.endwin] :=
  ⟨⟨1, rfl⟩,
   c2_cleanup_when_screen_acquired CursedApp.init c2LateFailWorld
     (Or.inl ⟨1, rfl⟩)⟩

/-! ## Claim C3 -/

/-- C3: when run() completes its join (every external call succeeds) and
one or more task handles record a failure, the exception, type and
traceback of the last failed handle in task-list order are copied into the
returned Outcome; the Outcome's fields are exactly that handle's data, so
failures recorded by earlier handles are not retained. -/
theorem c3_last_failure_copied (app : CursedApp) (w : RunWorld)
    (n sw : Nat) (p : Nat × Nat) (g : Greenlet) (e : PyExc)
    (h1 : w.initscr = Except.ok n) (h2 : w.getmaxyx = Except.ok p)
    (h3 : w.noecho = none) (h4 : w.cbreak = none) (h5 : w.start_color = none)
    (h6 : w.use_default_colors = none) (h7 : w.subwin = Except.ok sw)
    (h8 : w.keypad1 = none) (h9 : w.nodelay1 = none)
    (h10 : w.fix_windows = none) (h11 : w.joinall = none)
    (hg : lastFailing ((app.threads ++ w.windowThreads) ++ [w.inputThread]) =
      some g)
    (he : g.exception = some e) :
    (CursedApp.run app w).1 =
      some { exc_type := some e.ty, exc := some e, tb := some g.tb } := by
  have hb := runTryBlock_ok w n sw p h1 h2 h3 h4 h5 h6 h7 h8 h9 h10 h11
    { result := Result.init, scr := app.scr, window := app.window,
      threads := app.threads }
  have hex := extractThreads_lastFailing Result.init
    ((app.threads ++ w.windowThreads) ++ [w.inputThread]) g hg
  rw [List.append_assoc] at hex
  simp [CursedApp.run, hb, hex, Result.extractThreadException,
    Greenlet.exc_info, he]

/-- C3 witness: a run over three window greenlets of which the first and
third failed; the Outcome carries exactly the third one's data. -/
theorem c3_last_failure_copied_witness :
    lastFailing ((CursedApp.init.threads ++ c3World.windowThreads) ++
        [c3World.inputThread]) = some gFail2 ∧
    gFail2.exception = some keyError ∧
    (CursedApp.run CursedApp.init c3World).1 =
      some { exc_type := some keyError.ty, exc := some keyError,
             tb := some gFail2.tb } :=
  ⟨by decide, rfl,
   c3_last_failure_copied CursedApp.init c3World 1 2 (24, 80) gFail2 keyError
     rfl rfl rfl rfl rfl rfl rfl rfl rfl rfl rfl (by decide) rfl⟩

/-! ## Claim C10 -/

/-- C10: run() never resets `self.threads`: after a run in which every
external call succeeds, the handle list is the pre-run list with the newly
spawned handles appended — so handles accumulate across calls on the same
controller — and when the pre-run handles' last failure is `g` while every
newly spawned greenlet succeeds, the second run's Outcome still carries
`g`'s failure. -/
theorem c10_threads_accumulate (app : CursedApp) (w : RunWorld)
    (n sw : Nat) (p : Nat × Nat) (g : Greenlet) (e : PyExc)
    (h1 : w.initscr = Except.ok n) (h2 : w.getmaxyx = Except.ok p)
    (h3 : w.noecho = none) (h4 : w.cbreak = none) (h5 : w.start_color = none)
    (h6 : w.use_default_colors = none) (h7 : w.subwin = Except.ok sw)
    (h8 : w.keypad1 = none) (h9 : w.nodelay1 = none)
    (h10 : w.fix_windows = none) (h11 : w.joinall = none)
    (hg : lastFailing app.threads = some g)
    (he : g.exception = some e)
    (hnew : ∀ x ∈ w.windowThreads, x.exception = none)
    (hin : w.inputThread.exception = none) :
    (CursedApp.run app w).2.1.threads =
      (app.threads ++ w.windowThreads) ++ [w.inputThread] ∧
    (CursedApp.run app w).1 =
      some { exc_type := some e.ty, exc := some e, tb := some g.tb } := by
  have hb := runTryBlock_ok w n sw p h1 h2 h3 h4 h5 h6 h7 h8 h9 h10 h11
    { result := Result.init, scr := app.scr, window := app.window,
      threads := app.threads }
  have hone : ∀ x ∈ [w.inputThread], x.exception = none := by
    intro x hx
    simp only [List.mem_singleton] at hx
    rw [hx]
    exact hin
  have hlf : lastFailing ((app.threads ++ w.windowThreads) ++ [w.inputThread]) =
      some g := by
    rw [lastFailing_append_nofail _ [w.inputThread] hone,
      lastFailing_append_nofail _ w.windowThreads hnew]
    exact hg
  have hex := extractThreads_lastFailing Result.init
    ((app.threads ++ w.windowThreads) ++ [w.inputThread]) g hlf
  rw [List.append_assoc] at hex
  constructor
  · simp [CursedApp.run, hb]
  · simp [CursedApp.run, hb, hex, Result.extractThreadException,
      Greenlet.exc_info, he]

/-- C10 witness: a second run, on the controller state left by a first run
whose window greenlet failed, in which every new greenlet succeeds; the
old failure is still copied into the second Outcome and the old handles
are still in the list. -/
theorem c10_threads_accumulate_witness :
    lastFailing c10App.threads = some gFail1 ∧
    (∀ x ∈ c10SecondWorld.windowThreads, x.exception = none) ∧
    ((CursedApp.run c10App c10SecondWorld).2.1.threads =
       (c10App.threads ++ c10SecondWorld.windowThreads) ++
         [c10SecondWorld.inputThread] ∧
     (CursedApp.run c10App c10SecondWorld).1 =
       some { exc_type := some rtError.ty, exc := some rtError,
              tb := some gFail1.tb }) :=
  ⟨by decide, by decide,
   c10_threads_accumulate c10App c10SecondWorld 1 2 (24, 80) gFail1 rtError
     rfl rfl rfl rfl rfl rfl rfl rfl rfl rfl rfl (by decide) rfl (by decide)
     rfl⟩
